import Mathlib

/-!
Verification of the PsychroMinder measurement pipeline.

The development shallowly embeds the repository's core logic:
the psychrometric calculator (`src/types.ts`), the oracle-response
adapter (`src/services/geminiService.ts`), the app-level session
handlers (`src/App.tsx`) and the review card state machine
(`src/components/ResultCard.tsx`).  JavaScript numbers are modelled
as real numbers; `toFixed(1)` followed by `parseFloat` is modelled as
rounding to one decimal place.
-/

namespace Psychro

/-- One decimal place rounding, modelling `parseFloat(x.toFixed(1))`. -/
noncomputable def roundTo1 (x : ℝ) : ℝ :=
  ((round (x * 10) : ℤ) : ℝ) / 10

/-- Saturation vapor pressure (hPa) by the Magnus formula,
from `getSaturationVaporPressure` in `src/types.ts`. -/
noncomputable def getSaturationVaporPressure (temp : ℝ) : ℝ :=
  6.112 * Real.exp ((17.67 * temp) / (temp + 243.5))

/-- Relative humidity by the Sprung formula, from `calculateHumidity`
in `src/types.ts`: pressure 1013.25 hPa, psychrometer coefficient
0.0007947, result clamped to [0, 100] and rounded to one decimal. -/
noncomputable def calculateHumidity (dryTemp wetTemp : ℝ) : ℝ :=
  let p : ℝ := 1013.25
  let A : ℝ := 0.0007947
  let esWet := getSaturationVaporPressure wetTemp
  let esDry := getSaturationVaporPressure dryTemp
  let e := esWet - A * p * (dryTemp - wetTemp)
  let rh := e / esDry * 100
  roundTo1 (max 0 (min 100 rh))

/-- Dew point by Magnus inversion, from `calculateDewPoint` in
`src/types.ts`. -/
noncomputable def calculateDewPoint (temp : ℝ) (rh : ℝ) : ℝ :=
  let a : ℝ := 17.27
  let b : ℝ := 237.7
  let alpha := ((a * temp) / (b + temp)) + Real.log (rh / 100.0)
  (b * alpha) / (a - alpha)

/-- Structured reading produced by the oracle adapter, from
`PsychrometricData` in `src/types.ts`. -/
structure PsychrometricData where
  dryTemp : ℝ
  wetTemp : ℝ
  isPsychrometer : Bool
  confidence : Option ℝ

/-- Derived measurement, from `CalculationResult` in `src/types.ts`;
the optional `dewPoint` field is `none` when suppressed. -/
structure CalculationResult extends PsychrometricData where
  relativeHumidity : ℝ
  dewPoint : Option ℝ

/-- User-corrected calibration exemplar, from `TrainingExample` in
`src/types.ts`. -/
structure TrainingExample where
  id : String
  timestamp : Nat
  imageUrl : String
  correctedDry : ℝ
  correctedWet : ℝ

/-- Session lifecycle states, from `AppState` in `src/types.ts`. -/
inductive AppState
  | IDLE
  | ANALYZING
  | SUCCESS
  | ERROR
deriving DecidableEq

/-- Typed outcomes of the extraction pipeline in
`src/services/geminiService.ts`: the thrown `NOT_A_PSYCHROMETER`
marker and any other (transport or malformed-response) failure. -/
inductive ExtractionError
  | subjectNotRecognized
  | transportFailure (message : String)
deriving DecidableEq

/-- User-facing message for a rejected subject, from the catch branch of
`analyzeHygrometer` in `src/services/geminiService.ts`. -/
def notAPsychrometerMessage : String :=
  "На зображенні не знайдено психрометра. Будь ласка, сфотографуйте прилад ВІТ-1 або ВІТ-2."

/-- Response handling of `analyzeHygrometer` after the oracle reply is
decoded (`src/services/geminiService.ts` lines 106-127): a response with
`isPsychrometer == false` throws `NOT_A_PSYCHROMETER`; otherwise the data
is returned exactly as received — the `wetTemp > dryTemp` branch only logs
a warning and performs no clamping, swapping or repair. -/
def processOracleResponse (data : PsychrometricData) :
    Except ExtractionError PsychrometricData :=
  if data.isPsychrometer = false then
    Except.error ExtractionError.subjectNotRecognized
  else
    Except.ok data

/-- Message attached to a failed extraction, from the catch branch of
`analyzeHygrometer`. -/
def extractionErrorMessage : ExtractionError → String
  | ExtractionError.subjectNotRecognized => notAPsychrometerMessage
  | ExtractionError.transportFailure message => message

/-- App-level state held by the `App` component in `src/App.tsx`. -/
structure AppModel where
  appState : AppState
  image : Option String
  data : Option PsychrometricData
  errorMsg : Option String
  trainingExamples : List TrainingExample

/-- Resolution of the awaited extraction inside `handleImageSelected`
(`src/App.tsx`): success stores the reading and enters `SUCCESS`; any
thrown error stores its message and enters `ERROR`. -/
def resolveAnalysis (m : AppModel)
    (outcome : Except ExtractionError PsychrometricData) : AppModel :=
  match outcome with
  | Except.ok result => { m with data := some result, appState := AppState.SUCCESS }
  | Except.error e =>
      { m with errorMsg := some (extractionErrorMessage e),
               appState := AppState.ERROR }

/-- `handleImageSelected` in `src/App.tsx`, with the oracle's decoded
reply passed in as `oracleData`: the handler stores the image, enters
`ANALYZING`, clears the error message, then resolves the adapter's
outcome on that reply. -/
def handleImageSelected (m : AppModel) (base64 : String)
    (oracleData : PsychrometricData) : AppModel :=
  let m1 := { m with image := some base64,
                     appState := AppState.ANALYZING,
                     errorMsg := none }
  resolveAnalysis m1 (processOracleResponse oracleData)

/-- `Array.prototype.slice(-n)`: the last `n` elements of a list. -/
def sliceLast (l : List α) (n : Nat) : List α :=
  l.drop (l.length - n)

/-- Buffer update of `handleLearn` in `src/App.tsx`:
`[...trainingExamples, newExample].slice(-3)`. -/
def addExample (examples : List TrainingExample)
    (newExample : TrainingExample) : List TrainingExample :=
  sliceLast (examples ++ [newExample]) 3

/-- `handleLearn` in `src/App.tsx`: ignored when no image is present,
otherwise appends the new exemplar with FIFO capacity 3. -/
def handleLearn (m : AppModel) (newExample : TrainingExample) : AppModel :=
  match m.image with
  | none => m
  | some _ =>
      { m with trainingExamples := addExample m.trainingExamples newExample }

/-- The load effect run on mount in `src/App.tsx`: `saved` is the value
read from persistent storage and `parse` models `JSON.parse`, returning
`none` when parsing throws.  An absent or unparseable record leaves the
state untouched (the catch branch only logs to the console). -/
def loadTrainingEffect (m : AppModel) (saved : Option String)
    (parse : String → Option (List TrainingExample)) : AppModel :=
  match saved with
  | none => m
  | some s =>
      match parse s with
      | some examples => { m with trainingExamples := examples }
      | none => m

/-- The two editable review fields of `ResultCard`. -/
inductive TempField
  | dryField
  | wetField
deriving DecidableEq

/-- Field update used by `handleChange` in
`src/components/ResultCard.tsx`. -/
def setField (r : PsychrometricData) : TempField → ℝ → PsychrometricData
  | TempField.dryField, v => { r with dryTemp := v }
  | TempField.wetField, v => { r with wetTemp := v }

/-- `handleChange` in `src/components/ResultCard.tsx`: `parseNum` models
`parseFloat`, returning `none` for NaN-producing strings.  Empty text, a
lone minus sign, or an unparseable value leaves the readings unchanged. -/
def handleChange (parseNum : String → Option ℝ) (r : PsychrometricData)
    (field : TempField) (value : String) : PsychrometricData :=
  if value = "" ∨ value = "-" then r
  else
    match parseNum value with
    | none => r
    | some num => setField r field num

/-- Validation message set by the recalculation effect of `ResultCard`. -/
def physicalInconsistencyMessage : String :=
  "Температура вологого термометра не може бути вищою за сухий!"

/-- Local state of the `ResultCard` component in
`src/components/ResultCard.tsx`. -/
structure ReviewState where
  readings : PsychrometricData
  result : CalculationResult
  isCorrected : Bool
  hasLearned : Bool
  validationError : Option String

/-- The calculator invocations made by the recalculation effect of
`ResultCard` (lines 24-40): when `wetTemp > dryTemp` the effect returns
early and the calculator is never invoked (`none`); otherwise it computes
the humidity and feeds it to `calculateDewPoint`, yielding the pair
(relative humidity, dew point). -/
noncomputable def computeReviewValues (readings : PsychrometricData) :
    Option (ℝ × ℝ) :=
  if readings.wetTemp > readings.dryTemp then none
  else
    let rh := calculateHumidity readings.dryTemp readings.wetTemp
    some (rh, calculateDewPoint readings.dryTemp rh)

/-- The relative-humidity argument the recalculation effect passes to
`calculateDewPoint`, when that call happens at all. -/
noncomputable def dewPointCallArg (readings : PsychrometricData) :
    Option ℝ :=
  (computeReviewValues readings).map Prod.fst

/-- The recalculation effect of `ResultCard` (lines 24-54): on a physical
inconsistency it surfaces the validation error, zeroes the stored humidity
and drops the dew point, leaving everything else untouched; otherwise it
clears the error, stores the freshly computed result, updates the
corrected flag, and resets the learned flag when the readings changed by
more than 0.01 from the initially extracted values. -/
noncomputable def runRecalcEffect (initialData : PsychrometricData)
    (s : ReviewState) : ReviewState :=
  if s.readings.wetTemp > s.readings.dryTemp then
    { s with validationError := some physicalInconsistencyMessage,
             result := { s.result with relativeHumidity := 0,
                                       dewPoint := none } }
  else
    let rh := calculateHumidity s.readings.dryTemp s.readings.wetTemp
    let dp := calculateDewPoint s.readings.dryTemp rh
    let hasChanged := decide (0.01 < |s.readings.dryTemp - initialData.dryTemp|)
      || decide (0.01 < |s.readings.wetTemp - initialData.wetTemp|)
    { readings := s.readings,
      result := { toPsychrometricData := s.readings,
                  relativeHumidity := rh,
                  dewPoint := some (roundTo1 dp) },
      isCorrected := hasChanged,
      hasLearned := if hasChanged then false else s.hasLearned,
      validationError := none }

/-- `handleLearnClick` in `src/components/ResultCard.tsx`: returns the
updated state together with the learn event emitted to the app (`none`
when the commit is rejected because a validation error is active). -/
def handleLearnClick (s : ReviewState) : ReviewState × Option (ℝ × ℝ) :=
  if s.validationError.isSome then (s, none)
  else ({ s with hasLearned := true },
        some (s.readings.dryTemp, s.readings.wetTemp))

/-- Humidity as rendered by `ResultCard`: the value is replaced by a
placeholder while a validation error is active. -/
def displayedHumidity (s : ReviewState) : Option ℝ :=
  if s.validationError.isSome then none else some s.result.relativeHumidity

/-- Dew point as rendered by `ResultCard`: shown only when no validation
error is active and the stored dew point is defined. -/
def displayedDewPoint (s : ReviewState) : Option ℝ :=
  if s.validationError.isSome then none else s.result.dewPoint

/-- Sample extracted reading used as concrete review input. -/
def sampleInitialData : PsychrometricData :=
  { dryTemp := 20, wetTemp := 15, isPsychrometer := true, confidence := none }

/-- Physically inconsistent reading (wet bulb above dry bulb). -/
def inconsistentReadings : PsychrometricData :=
  { dryTemp := 20, wetTemp := 25, isPsychrometer := true, confidence := none }

/-- Review state holding the inconsistent readings. -/
def inconsistentReviewState : ReviewState :=
  { readings := inconsistentReadings,
    result := { toPsychrometricData := inconsistentReadings,
                relativeHumidity := 0, dewPoint := some 0 },
    isCorrected := false,
    hasLearned := false,
    validationError := none }

/-- Concrete calibration exemplars. -/
def exemplar1 : TrainingExample :=
  { id := "1", timestamp := 1, imageUrl := "img1",
    correctedDry := 20, correctedWet := 15 }

/-- Second concrete calibration exemplar. -/
def exemplar2 : TrainingExample :=
  { id := "2", timestamp := 2, imageUrl := "img2",
    correctedDry := 21, correctedWet := 16 }

/-- Third concrete calibration exemplar. -/
def exemplar3 : TrainingExample :=
  { id := "3", timestamp := 3, imageUrl := "img3",
    correctedDry := 22, correctedWet := 17 }

/-- Fourth concrete calibration exemplar. -/
def exemplar4 : TrainingExample :=
  { id := "4", timestamp := 4, imageUrl := "img4",
    correctedDry := 23, correctedWet := 18 }

/-- Initial app state on mount (`src/App.tsx`). -/
def initialAppModel : AppModel :=
  { appState := AppState.IDLE, image := none, data := none,
    errorMsg := none, trainingExamples := [] }

lemma getSaturationVaporPressure_pos (t : ℝ) :
    0 < getSaturationVaporPressure t := by
  unfold getSaturationVaporPressure
  positivity

lemma roundTo1_nonneg {x : ℝ} (hx : 0 ≤ x) : 0 ≤ roundTo1 x := by
  unfold roundTo1
  have h : (0 : ℤ) ≤ round (x * 10) := by
    rw [round_eq]
    exact Int.le_floor.mpr (by push_cast; linarith)
  have h' : (0 : ℝ) ≤ ((round (x * 10) : ℤ) : ℝ) := by exact_mod_cast h
  linarith

lemma roundTo1_le_hundred {x : ℝ} (hx : x ≤ 100) : roundTo1 x ≤ 100 := by
  unfold roundTo1
  have h : round (x * 10) ≤ 1000 := by
    rw [round_eq]
    have h1 : (⌊x * 10 + 1 / 2⌋ : ℤ) ≤ ⌊(1000.5 : ℝ)⌋ :=
      Int.floor_mono (by linarith)
    have h2 : (⌊(1000.5 : ℝ)⌋ : ℤ) = 1000 := by
      rw [Int.floor_eq_iff]
      norm_num
    omega
  have h' : ((round (x * 10) : ℤ) : ℝ) ≤ 1000 := by exact_mod_cast h
  linarith

/-- C1: for every pair of inputs, including physically invalid pairs with
`wetTemp > dryTemp`, `calculateHumidity` totally produces a numeric result
within [0, 100]: the clamp `max 0 (min 100 rh)` absorbs every out-of-range
intermediate value and one-decimal rounding preserves the bounds. -/
theorem calculateHumidity_bounds (dryTemp wetTemp : ℝ) :
    0 ≤ calculateHumidity dryTemp wetTemp ∧
      calculateHumidity dryTemp wetTemp ≤ 100 := by
  unfold calculateHumidity
  constructor
  · exact roundTo1_nonneg (le_max_left _ _)
  · exact roundTo1_le_hundred (max_le (by norm_num) (min_le_left _ _))

/-- C7: equal dry-bulb and wet-bulb readings yield exactly 100.0 percent
relative humidity: the psychrometric depression term vanishes, the vapor
pressure ratio is 1, and clamping and rounding leave 100 unchanged. -/
theorem calculateHumidity_saturated (t : ℝ) : calculateHumidity t t = 100 := by
  unfold calculateHumidity
  have hs : getSaturationVaporPressure t ≠ 0 :=
    ne_of_gt (getSaturationVaporPressure_pos t)
  have hrh : (getSaturationVaporPressure t -
      0.0007947 * 1013.25 * (t - t)) / getSaturationVaporPressure t * 100
        = 100 := by
    rw [sub_self, mul_zero, sub_zero, div_self hs, one_mul]
  simp only [hrh]
  have hmin : min (100 : ℝ) 100 = 100 := min_self 100
  have hmax : max (0 : ℝ) 100 = 100 := by norm_num
  rw [hmin, hmax]
  unfold roundTo1
  have h1000 : round ((100 : ℝ) * 10) = 1000 := by
    have hc : ((100 : ℝ) * 10) = ((1000 : ℤ) : ℝ) := by norm_num
    rw [hc, round_intCast]
  rw [h1000]
  norm_num

/-- C8: the Magnus saturation-vapor-pressure curve is strictly increasing
on the realistic range -40 °C to 60 °C. -/
theorem getSaturationVaporPressure_strictMono (t1 t2 : ℝ)
    (h1 : -40 ≤ t1) (h2 : t1 < t2) (h3 : t2 ≤ 60) :
    getSaturationVaporPressure t1 < getSaturationVaporPressure t2 := by
  unfold getSaturationVaporPressure
  have d1 : (0 : ℝ) < t1 + 243.5 := by linarith
  have d2 : (0 : ℝ) < t2 + 243.5 := by linarith
  have harg : (17.67 * t1) / (t1 + 243.5) < (17.67 * t2) / (t2 + 243.5) := by
    rw [div_lt_div_iff₀ d1 d2]
    nlinarith
  have hexp := Real.exp_lt_exp.mpr harg
  nlinarith [hexp]

/-- Witness for C8 at the concrete pair (0, 10). -/
theorem getSaturationVaporPressure_strictMono_witness :
    getSaturationVaporPressure 0 < getSaturationVaporPressure 10 :=
  getSaturationVaporPressure_strictMono 0 10 (by norm_num) (by norm_num)
    (by norm_num)

lemma addExample_length_le (l : List TrainingExample) (e : TrainingExample) :
    (addExample l e).length ≤ 3 := by
  simp only [addExample, sliceLast, List.length_drop, List.length_append,
    List.length_cons, List.length_nil]
  omega

lemma foldl_addExample_length_le (es : List TrainingExample) :
    ∀ l : List TrainingExample, l.length ≤ 3 →
      (es.foldl addExample l).length ≤ 3 := by
  induction es with
  | nil => intro l hl; simpa using hl
  | cons e es ih =>
      intro l _
      simpa using ih (addExample l e) (addExample_length_le l e)

/-- C2: starting from any buffer of size at most 3, no sequence of add
operations ever grows the exemplar buffer beyond 3; adding four exemplars
to an empty store leaves exactly the last three, in insertion order. -/
theorem exemplarBuffer_bounded (buf : List TrainingExample)
    (h : buf.length ≤ 3) (es : List TrainingExample)
    (e1 e2 e3 e4 : TrainingExample) :
    (es.foldl addExample buf).length ≤ 3 ∧
      [e1, e2, e3, e4].foldl addExample [] = [e2, e3, e4] := by
  refine ⟨foldl_addExample_length_le es buf h, ?_⟩
  rfl

/-- Witness for C2 on the concrete exemplars 1-4 starting from the empty
buffer. -/
theorem exemplarBuffer_bounded_witness :
    (([exemplar1, exemplar2, exemplar3, exemplar4].foldl addExample
        ([] : List TrainingExample)).length ≤ 3) ∧
      [exemplar1, exemplar2, exemplar3, exemplar4].foldl addExample []
        = [exemplar2, exemplar3, exemplar4] :=
  exemplarBuffer_bounded [] (by simp)
    [exemplar1, exemplar2, exemplar3, exemplar4]
    exemplar1 exemplar2 exemplar3 exemplar4

/-- C3: in every reviewing state whose readings have `wetTemp > dryTemp`,
running the recalculation effect surfaces the validation error, the
calculator is not invoked (`computeReviewValues` is `none`), neither
humidity nor dew point is displayed, and the calibration-commit action
emits no learn event. -/
theorem review_blocksInconsistentReadings (initialData : PsychrometricData)
    (s : ReviewState) (h : s.readings.dryTemp < s.readings.wetTemp) :
    (runRecalcEffect initialData s).validationError
        = some physicalInconsistencyMessage ∧
      computeReviewValues s.readings = none ∧
      displayedHumidity (runRecalcEffect initialData s) = none ∧
      displayedDewPoint (runRecalcEffect initialData s) = none ∧
      (handleLearnClick (runRecalcEffect initialData s)).2 = none := by
  have hc : s.readings.wetTemp > s.readings.dryTemp := h
  refine ⟨?_, ?_, ?_, ?_, ?_⟩ <;>
    simp [runRecalcEffect, computeReviewValues, displayedHumidity,
      displayedDewPoint, handleLearnClick, hc]

/-- Witness for C3 on the concrete inconsistent readings (dry 20, wet 25). -/
theorem review_blocksInconsistentReadings_witness :
    (runRecalcEffect sampleInitialData inconsistentReviewState).validationError
        = some physicalInconsistencyMessage ∧
      computeReviewValues inconsistentReviewState.readings = none ∧
      displayedHumidity
        (runRecalcEffect sampleInitialData inconsistentReviewState) = none ∧
      displayedDewPoint
        (runRecalcEffect sampleInitialData inconsistentReviewState) = none ∧
      (handleLearnClick
        (runRecalcEffect sampleInitialData inconsistentReviewState)).2 = none :=
  review_blocksInconsistentReadings sampleInitialData inconsistentReviewState
    (by norm_num [inconsistentReviewState, inconsistentReadings])

/-- C4: an oracle response asserting the image is not a psychrometer makes
the extraction fail with `SubjectNotRecognized`, sends the session to the
`ERROR` state with the user-facing not-a-psychrometer message, and never
reaches the `SUCCESS` state. -/
theorem rejectedSubject_reachesErrorState (m : AppModel) (base64 : String)
    (oracleData : PsychrometricData)
    (h : oracleData.isPsychrometer = false) :
    processOracleResponse oracleData
        = Except.error ExtractionError.subjectNotRecognized ∧
      (handleImageSelected m base64 oracleData).appState = AppState.ERROR ∧
      (handleImageSelected m base64 oracleData).appState ≠ AppState.SUCCESS ∧
      (handleImageSelected m base64 oracleData).errorMsg
        = some notAPsychrometerMessage := by
  refine ⟨?_, ?_, ?_, ?_⟩ <;>
    simp [processOracleResponse, handleImageSelected, resolveAnalysis,
      extractionErrorMessage, h]

/-- Witness for C4 on the concrete response with `isPsychrometer = false`
and zero temperatures. -/
theorem rejectedSubject_reachesErrorState_witness :
    processOracleResponse
        { dryTemp := 0, wetTemp := 0, isPsychrometer := false,
          confidence := none }
        = Except.error ExtractionError.subjectNotRecognized ∧
      (handleImageSelected initialAppModel "img"
        { dryTemp := 0, wetTemp := 0, isPsychrometer := false,
          confidence := none }).appState = AppState.ERROR ∧
      (handleImageSelected initialAppModel "img"
        { dryTemp := 0, wetTemp := 0, isPsychrometer := false,
          confidence := none }).appState ≠ AppState.SUCCESS ∧
      (handleImageSelected initialAppModel "img"
        { dryTemp := 0, wetTemp := 0, isPsychrometer := false,
          confidence := none }).errorMsg = some notAPsychrometerMessage :=
  rejectedSubject_reachesErrorState initialAppModel "img"
    { dryTemp := 0, wetTemp := 0, isPsychrometer := false,
      confidence := none } rfl

/-- C6: a well-formed oracle response with `isPsychrometer = true` and
`wetTemp > dryTemp` does not make the adapter fail: the reading is
returned exactly as received, with no clamping, swapping or repair. -/
theorem inconsistentReading_passedThrough (data : PsychrometricData)
    (hsubject : data.isPsychrometer = true)
    (hphys : data.dryTemp < data.wetTemp) :
    processOracleResponse data = Except.ok data := by
  simp [processOracleResponse, hsubject]

/-- Witness for C6 on the concrete response (dry 20, wet 25). -/
theorem inconsistentReading_passedThrough_witness :
    processOracleResponse inconsistentReadings
      = Except.ok inconsistentReadings :=
  inconsistentReading_passedThrough inconsistentReadings rfl
    (by norm_num [inconsistentReadings])

/-- C9: when the persisted calibration record is absent or `JSON.parse`
fails on it, the load effect leaves the app state unchanged, so the
exemplar buffer stays empty and no error is surfaced to the user. -/
theorem corruptCalibration_loadsEmpty (m : AppModel) (saved : Option String)
    (parse : String → Option (List TrainingExample))
    (hinit : m.trainingExamples = [])
    (hcorrupt : saved = none ∨ ∃ s, saved = some s ∧ parse s = none) :
    loadTrainingEffect m saved parse = m ∧
      (loadTrainingEffect m saved parse).trainingExamples = [] ∧
      (loadTrainingEffect m saved parse).errorMsg = m.errorMsg := by
  have hfix : loadTrainingEffect m saved parse = m := by
    rcases hcorrupt with hnone | ⟨s, hs, hp⟩
    · rw [hnone]; rfl
    · rw [hs]; simp [loadTrainingEffect, hp]
  exact ⟨hfix, by rw [hfix, hinit], by rw [hfix]⟩

/-- Witness for C9 on the initial app state with an absent record. -/
theorem corruptCalibration_loadsEmpty_witness :
    loadTrainingEffect initialAppModel none (fun _ => none)
        = initialAppModel ∧
      (loadTrainingEffect initialAppModel none
        (fun _ => none)).trainingExamples = [] ∧
      (loadTrainingEffect initialAppModel none (fun _ => none)).errorMsg
        = initialAppModel.errorMsg :=
  corruptCalibration_loadsEmpty initialAppModel none (fun _ => none) rfl
    (Or.inl rfl)

/-- C5: the recalculation effect does NOT guard the logarithm singularity.
At the reachable readings dry = 20, wet = -40 (wet below dry, so the
effect proceeds), the clamped humidity is exactly 0 and the session
invokes `calculateDewPoint` with relative-humidity argument 0, hitting
`log 0`. -/
theorem dewPoint_invokedAtZeroHumidity :
    dewPointCallArg
        { dryTemp := 20, wetTemp := -40, isPsychrometer := true,
          confidence := none } = some 0 ∧
      calculateHumidity 20 (-40) = 0 := by
  have hsat : getSaturationVaporPressure (-40) < 6.112 := by
    unfold getSaturationVaporPressure
    have hx : (17.67 * (-40) / ((-40) + 243.5) : ℝ) < 0 := by norm_num
    have he := Real.exp_lt_one_iff.mpr hx
    nlinarith
  have hd : 0 < getSaturationVaporPressure 20 :=
    getSaturationVaporPressure_pos 20
  have hnum : getSaturationVaporPressure (-40)
      - 0.0007947 * 1013.25 * ((20 : ℝ) - (-40)) < 0 := by nlinarith
  have hrh : (getSaturationVaporPressure (-40)
      - 0.0007947 * 1013.25 * ((20 : ℝ) - (-40)))
        / getSaturationVaporPressure 20 * 100 < 0 :=
    mul_neg_of_neg_of_pos (div_neg_of_neg_of_pos hnum hd) (by norm_num)
  have hzero : calculateHumidity 20 (-40) = 0 := by
    show roundTo1 (max 0 (min 100 ((getSaturationVaporPressure (-40)
      - 0.0007947 * 1013.25 * ((20 : ℝ) - (-40)))
        / getSaturationVaporPressure 20 * 100))) = 0
    rw [min_eq_right (by linarith), max_eq_left (le_of_lt hrh)]
    simp [roundTo1]
  refine ⟨?_, hzero⟩
  have hnotgt : ¬ ((-40 : ℝ) > (20 : ℝ)) := by norm_num
  simp only [dewPointCallArg, computeReviewValues]
  rw [if_neg hnotgt]
  simp [hzero]

/-- C10: an edit whose text is empty, a lone minus sign, or fails to parse
as a number leaves the stored readings completely unchanged. -/
theorem unparseableEdit_isIgnored (parseNum : String → Option ℝ)
    (r : PsychrometricData) (field : TempField) (value : String)
    (h : value = "" ∨ value = "-" ∨ parseNum value = none) :
    handleChange parseNum r field value = r := by
  by_cases hv : value = "" ∨ value = "-"
  · simp [handleChange, hv]
  · rcases h with h1 | h2 | h3
    · exact absurd (Or.inl h1) hv
    · exact absurd (Or.inr h2) hv
    · simp [handleChange, hv, h3]

/-- Witness for C10: an unparseable edit of the dry field is ignored. -/
theorem unparseableEdit_isIgnored_witness :
    handleChange (fun _ => none) sampleInitialData TempField.dryField "abc"
      = sampleInitialData :=
  unparseableEdit_isIgnored (fun _ => none) sampleInitialData
    TempField.dryField "abc" (Or.inr (Or.inr rfl))

end Psychro
